import Mathlib

/-!
Shallow embedding of the duka order-placement core (products app).

The Django models, serializers and views in `src/products/` are translated
into pure Lean functions over an explicit database state.  Decimal fields
(`price`, `price_at_time`, `total_amount`) become `Rat`, which is exact;
`PositiveIntegerField` columns become `Int` so that negativity is expressible
and the non-negativity claims are not trivially true by typing.  Python
exceptions become `Except Err` results; a function that performs database
writes returns the written state together with its outcome, so that writes
that happen before an exception is raised remain visible, exactly as they do
against a real database without a wrapping transaction.
-/

namespace Duka

/-- Exact decimal money values (`DecimalField(max_digits=10, decimal_places=2)`). -/
abbrev Money := Rat

/-- `Order.OrderStatus` text choices (models.py 118-122). -/
inductive OrderStatus where
  | pending
  | processing
  | completed
  | cancelled
deriving DecidableEq, Repr

/-- `Category` (models.py 17-44): tree node with a nullable parent link.
Primary keys are modelled as `Nat` (the UUIDs are opaque tokens). -/
structure Category where
  pk : Nat
  name : String
  parent : Option Nat
  is_active : Bool
deriving DecidableEq, Repr

/-- `Product` (models.py 68-114).  `categories` is the many-to-many set of
category primary keys; `stock` is an `Int` so the embedding can express a
negative stock if the code were to produce one. -/
structure Product where
  pk : Nat
  name : String
  price : Money
  categories : List Nat
  stock : Int
  is_active : Bool
deriving DecidableEq, Repr

/-- `Customer` (models.py 46-66), reduced to the fields the order flow reads. -/
structure Customer where
  pk : Nat
  phone_number : String
  is_active : Bool
deriving DecidableEq, Repr

/-- `Order` (models.py 116-155). -/
structure Order where
  pk : Nat
  customer : Nat
  status : OrderStatus
  total_amount : Money
  notes : String
deriving DecidableEq, Repr

/-- `OrderItem` (models.py 157-194). -/
structure OrderItem where
  pk : Nat
  order : Nat
  product : Nat
  quantity : Int
  price_at_time : Money
deriving DecidableEq, Repr

/-- The relational state the products app reads and writes.  `next_pk` stands
in for the UUID generator used for freshly created rows. -/
structure DB where
  categories : List Category
  products : List Product
  customers : List Customer
  orders : List Order
  order_items : List OrderItem
  next_pk : Nat
deriving DecidableEq, Repr

/-- Errors raised along the order-placement path.  Raised Python exceptions
are carried as values; the constructors keep the data each message formats. -/
inductive Err where
  /-- `serializers.ValidationError("Order must contain at least one item.")`
  from `OrderSerializer.validate_items_data`. -/
  | empty_items
  /-- `PrimaryKeyRelatedField` failure: the product id does not resolve inside
  `Product.objects.filter(is_active=True)`. -/
  | product_not_found
  /-- `PrimaryKeyRelatedField` failure for `customer_id`. -/
  | customer_not_found
  /-- `OrderItemSerializer.validate_quantity`: quantity below 1. -/
  | quantity_too_small
  /-- `OrderItemSerializer.validate`: "Only {stock} items available in stock." -/
  | only_available (available : Int)
  /-- `OrderSerializer.create`: "Insufficient stock for {name} ({stock} available)." -/
  | insufficient_stock_for (name : String) (available : Int)
  /-- Python `AttributeError` raised when an attribute is missing; the payload
  is the attribute name the code tried to read. -/
  | attributeError (attr : String)
deriving DecidableEq, Repr

/-- Row lookup by primary key, the `objects.get`/foreign-key dereference. -/
def findProduct (db : DB) (pid : Nat) : Option Product :=
  db.products.find? (fun p => p.pk == pid)

def findCategory (db : DB) (cid : Nat) : Option Category :=
  db.categories.find? (fun c => c.pk == cid)

def findOrder (db : DB) (oid : Nat) : Option Order :=
  db.orders.find? (fun o => o.pk == oid)

def findOrderItem (db : DB) (iid : Nat) : Option OrderItem :=
  db.order_items.find? (fun it => it.pk == iid)

/-- Database `save`: UPDATE the row with the same pk, or INSERT a new row. -/
def upsert {α : Type} (pkOf : α → Nat) (xs : List α) (x : α) : List α :=
  if xs.any (fun y => pkOf y == pkOf x) then
    xs.map (fun y => if pkOf y == pkOf x then x else y)
  else
    xs ++ [x]

def writeProduct (db : DB) (p : Product) : DB :=
  { db with products := upsert Product.pk db.products p }

def writeOrder (db : DB) (o : Order) : DB :=
  { db with orders := upsert Order.pk db.orders o }

def writeOrderItem (db : DB) (it : OrderItem) : DB :=
  { db with order_items := upsert OrderItem.pk db.order_items it }

/-- `OrderItem.get_subtotal` (models.py 192-194): `quantity * price_at_time`. -/
def get_subtotal (it : OrderItem) : Money :=
  (it.quantity : Rat) * it.price_at_time

/-- `Order.calculate_total` (models.py 148-155): sum the subtotals of the
order's items and persist the total when it changed. -/
def calculate_total (db : DB) (oid : Nat) : DB :=
  match findOrder db oid with
  | none => db
  | some o =>
      let items := db.order_items.filter (fun it => it.order == oid)
      let total := (items.map get_subtotal).sum
      if o.total_amount ≠ total then writeOrder db { o with total_amount := total }
      else db

/-- `Product.save` (models.py 103-110).  The guard `if not self.pk` never
fires: `pk` is a UUID field whose default is applied at instance
construction, so every `Product` instance carries a pk and the misplaced
stock-reduction branch (which would itself fail reading `self.product`) is
dead.  After `super().save()` has written the row, the method evaluates
`self.order.calculate_total()`, but `Product` has no attribute `order`, so
every call persists the row and then raises `AttributeError`. -/
def product_save (db : DB) (p : Product) : DB × Except Err Unit :=
  (writeProduct db p, .error (.attributeError "order"))

/-- `OrderItem.save` (models.py 186-190): on every save the method overwrites
`price_at_time` with the product's current price, writes the row, then
recomputes the parent order's total. -/
def order_item_save (db : DB) (it : OrderItem) : DB × Except Err Unit :=
  match findProduct db it.product with
  | none => (db, .error (.attributeError "product"))
  | some prod =>
      let it2 := { it with price_at_time := prod.price }
      let db1 := writeOrderItem db it2
      (calculate_total db1 it2.order, .ok ())

/-- One entry of `items_data` after DRF field validation: the resolved
`Product` instance (a snapshot of the row at validation time) plus the
requested quantity. -/
structure ItemData where
  product : Product
  quantity : Int
deriving DecidableEq, Repr

/-- The stock-check loop at the top of `OrderSerializer.create`
(serializers.py 199-205): raise on the first item whose snapshot stock is
below the requested quantity, before any write. -/
def check_stock : List ItemData → Except Err Unit
  | [] => .ok ()
  | it :: rest =>
      if it.product.stock < it.quantity then
        .error (.insufficient_stock_for it.product.name it.product.stock)
      else
        check_stock rest

/-- The commit loop of `OrderSerializer.create` (serializers.py 208-212):
for each item, decrement the snapshot's stock, call `Product.save`, then
`OrderItem.objects.create` (which runs `OrderItem.save`).  An exception from
either save aborts the loop and propagates, keeping the writes already made. -/
def commit_items (db : DB) (oid : Nat) : List ItemData → DB × Except Err Unit
  | [] => (db, .ok ())
  | it :: rest =>
      let prod2 := { it.product with stock := it.product.stock - it.quantity }
      match product_save db prod2 with
      | (db1, .error e) => (db1, .error e)
      | (db1, .ok _) =>
          let oitem : OrderItem :=
            { pk := db1.next_pk, order := oid, product := it.product.pk,
              quantity := it.quantity, price_at_time := 0 }
          let db2 := { db1 with next_pk := db1.next_pk + 1 }
          match order_item_save db2 oitem with
          | (db3, .error e) => (db3, .error e)
          | (db3, .ok _) => commit_items db3 oid rest

/-- `OrderSerializer.create` (serializers.py 194-215): check stock for every
item, create the `Order` row (status defaults to PENDING, total to 0),
run the commit loop, then `order.calculate_total()`.  Returns the new
order's pk on success. -/
def order_create (db : DB) (customer : Nat) (notes : String)
    (items_data : List ItemData) : DB × Except Err Nat :=
  match check_stock items_data with
  | .error e => (db, .error e)
  | .ok _ =>
      let o : Order :=
        { pk := db.next_pk, customer := customer, status := .pending,
          total_amount := 0, notes := notes }
      let db1 := writeOrder { db with next_pk := db.next_pk + 1 } o
      match commit_items db1 o.pk items_data with
      | (db2, .error e) => (db2, .error e)
      | (db2, .ok _) => (calculate_total db2 o.pk, .ok o.pk)

/-- The `product_id` field of `OrderItemSerializer`: resolve the pk inside
`Product.objects.filter(is_active=True)`. -/
def active_product (db : DB) (pid : Nat) : Option Product :=
  (db.products.filter (fun p => p.is_active)).find? (fun p => p.pk == pid)

/-- The `customer_id` field of `OrderSerializer`: resolve the pk inside
`Customer.objects.filter(is_active=True)`. -/
def active_customer (db : DB) (cid : Nat) : Option Customer :=
  (db.customers.filter (fun c => c.is_active)).find? (fun c => c.pk == cid)

/-- DRF validation of one `items_data` entry: resolve the product, then
`validate_quantity`, then `OrderItemSerializer.validate` (the per-item stock
check, serializers.py 157-168). -/
def validate_item (db : DB) (pid : Nat) (qty : Int) : Except Err ItemData :=
  match active_product db pid with
  | none => .error .product_not_found
  | some p =>
      if qty < 1 then .error .quantity_too_small
      else if qty > p.stock then .error (.only_available p.stock)
      else .ok { product := p, quantity := qty }

/-- Validation of the whole `items_data` list, in submission order; the first
failing item aborts the request. -/
def validate_items (db : DB) : List (Nat × Int) → Except Err (List ItemData)
  | [] => .ok []
  | (pid, qty) :: rest => do
      let it ← validate_item db pid qty
      let tail ← validate_items db rest
      pure (it :: tail)

/-- The full order-placement pipeline behind `POST /orders/`: resolve the
customer, validate every item, reject an empty item list
(`validate_items_data`), then run `OrderSerializer.create`.  Validation
performs no writes, so every validation failure leaves the state unchanged. -/
def place_order (db : DB) (customer_id : Nat) (items : List (Nat × Int))
    (notes : String) : DB × Except Err Nat :=
  match active_customer db customer_id with
  | none => (db, .error .customer_not_found)
  | some c =>
      match validate_items db items with
      | .error e => (db, .error e)
      | .ok items_data =>
          if items_data.isEmpty then (db, .error .empty_items)
          else order_create db c.pk notes items_data

/-- A sequence of order-placement attempts, each running against the state
the previous attempt left behind. -/
def run_attempts (db : DB) : List (Nat × List (Nat × Int) × String) → DB
  | [] => db
  | (c, its, n) :: rest => run_attempts (place_order db c its n).1 rest

/-- Walks the parent chain from `cid` upward; `true` when `root` is reached.
`fuel` bounds the walk (one more than the table size covers every acyclic
chain), matching MPTT subtree membership on well-formed trees. -/
def in_subtree (cats : List Category) : Nat → Nat → Nat → Bool
  | 0, _, _ => false
  | fuel + 1, cid, root =>
      if cid == root then true
      else
        match cats.find? (fun c => c.pk == cid) with
        | none => false
        | some c =>
            match c.parent with
            | none => false
            | some par => in_subtree cats fuel par root

/-- `self.get_descendants(include_self=True)` (MPTT): the categories in the
subtree rooted at `root`. -/
def get_descendants_include_self (db : DB) (root : Nat) : List Category :=
  db.categories.filter
    (fun c => in_subtree db.categories (db.categories.length + 1) c.pk root)

/-- The primary keys of `self.get_descendants(include_self=True)`, the id set
the `categories__in` lookup receives. -/
def descendant_ids (db : DB) (root : Nat) : List Nat :=
  (get_descendants_include_self db root).map (fun c => c.pk)

/-- `Category.get_products_count` (models.py 42-44):
`Product.objects.filter(categories__in=descendants).count()`.  The SQL join
produces one row per (product, category) association whose category lies in
the subtree, and `count()` counts those rows without `DISTINCT`, so a product
is counted once per matching category. -/
def get_products_count (db : DB) (root : Nat) : Nat :=
  (db.products.map
    (fun p =>
      (p.categories.filter (fun cid => (descendant_ids db root).contains cid)).length)).sum

/-- The count the spec describes, written from the spec's words for
comparison with `get_products_count`: the number of distinct products whose
category set intersects the subtree. -/
def spec_products_count (db : DB) (root : Nat) : Nat :=
  (db.products.filter
    (fun p => p.categories.any (fun cid => (descendant_ids db root).contains cid))).length

/-- `ProductViewSet.category_average` (views.py 125-142):
`Product.objects.filter(categories__id=cid, is_active=True)` aggregated with
`Avg('price')`, which is NULL over an empty set. -/
def category_average (db : DB) (cid : Nat) : Option Money :=
  let qs := db.products.filter (fun p => p.is_active && p.categories.contains cid)
  match qs with
  | [] => none
  | _ => some ((qs.map (fun p => p.price)).sum / (qs.length : Rat))

/-- Log records produced by the `except` blocks of
`OrderViewSet._send_order_notifications`. -/
inductive LogEntry where
  | sms_failed (e : String)
  | email_failed (e : String)
deriving DecidableEq, Repr

/-- What a run of `_send_order_notifications` did. -/
structure NotifyTrace where
  sms_attempted : Bool
  email_attempted : Bool
  logs : List LogEntry
  /-- The exception the method itself raises to its caller, if any. -/
  raised : Option Err
deriving DecidableEq, Repr

/-- `OrderViewSet._send_order_notifications` (views.py 186-212).  The SMS and
email channel outcomes are supplied by the external collaborators; each
attempt sits in its own `try`/`except Exception` block that logs the failure,
so the second block runs whatever the first did, the method performs no
database writes, and no exception escapes to the caller. -/
def send_order_notifications (db : DB) (_oid : Nat)
    (sms_outcome email_outcome : Except String Unit) : DB × NotifyTrace :=
  let sms_logs : List LogEntry :=
    match sms_outcome with
    | .ok _ => []
    | .error e => [.sms_failed e]
  let email_logs : List LogEntry :=
    match email_outcome with
    | .ok _ => []
    | .error e => [.email_failed e]
  (db, { sms_attempted := true, email_attempted := true,
         logs := sms_logs ++ email_logs, raised := none })

/-- Two requests racing for the same stock, in the interleaving where both
complete DRF validation (reading the product rows) before either runs
`OrderSerializer.create`.  Each `create` then works from its own stale
snapshot, exactly as the read-then-write pair in serializers.py 199-212
does. -/
def concurrent_place_order (db : DB) (custA custB : Nat)
    (itemsA itemsB : List (Nat × Int)) :
    DB × Except Err Nat × Except Err Nat :=
  match validate_items db itemsA, validate_items db itemsB with
  | .ok ia, .ok ib =>
      let (db1, ra) := order_create db custA "" ia
      let (db2, rb) := order_create db1 custB "" ib
      (db2, ra, rb)
  | .error ea, .ok ib =>
      let (db1, rb) := order_create db custB "" ib
      (db1, .error ea, rb)
  | .ok ia, .error eb =>
      let (db1, ra) := order_create db custA "" ia
      (db1, ra, .error eb)
  | .error ea, .error eb => (db, .error ea, .error eb)

/-! ### Concrete fixtures used by the witnesses and counterexamples -/

/-- An active product row. -/
def mkProduct (pk : Nat) (name : String) (price : Money) (cats : List Nat)
    (stock : Int) : Product :=
  { pk := pk, name := name, price := price, categories := cats, stock := stock,
    is_active := true }

/-- An active customer row. -/
def mkCustomer (pk : Nat) : Customer :=
  { pk := pk, phone_number := "0700000000", is_active := true }

def c1db : DB :=
  { categories := [], products := [mkProduct 10 "juice" (15 / 2) [] 4],
    customers := [mkCustomer 1], orders := [], order_items := [], next_pk := 200 }

def c2prod : Product := mkProduct 10 "soda" 10 [] 2

def c2cust : Customer := mkCustomer 1

def c2db : DB :=
  { categories := [], products := [c2prod], customers := [c2cust],
    orders := [], order_items := [], next_pk := 300 }

def c3db : DB :=
  { categories := [], products := [mkProduct 20 "widget" 10 [] 5],
    customers := [mkCustomer 1], orders := [], order_items := [], next_pk := 100 }

def c4item : OrderItem :=
  { pk := 50, order := 40, product := 30, quantity := 2, price_at_time := 10 }

def c4db : DB :=
  { categories := [], products := [mkProduct 30 "gizmo" 12 [] 9],
    customers := [mkCustomer 1],
    orders := [{ pk := 40, customer := 1, status := .pending, total_amount := 20,
                 notes := "" }],
    order_items := [c4item], next_pk := 60 }

def c5db : DB :=
  { categories := [], products := [mkProduct 60 "lamp" 5 [] 1],
    customers := [mkCustomer 1, mkCustomer 2], orders := [], order_items := [],
    next_pk := 400 }

def c6db : DB :=
  { categories := [], products := [mkProduct 70 "apples" 2 [] 3],
    customers := [mkCustomer 1], orders := [], order_items := [], next_pk := 500 }

def c6reqs : List (Nat × List (Nat × Int) × String) :=
  [(1, [(70, 2)], ""), (1, [(70, 2)], "")]

def c8db : DB :=
  { categories := [{ pk := 1, name := "Drinks", parent := none, is_active := true },
                   { pk := 2, name := "Soda", parent := some 1, is_active := true }],
    products := [mkProduct 5 "P" 3 [1, 2] 4], customers := [], orders := [],
    order_items := [], next_pk := 600 }

def c8scn : DB :=
  { categories := [{ pk := 1, name := "Drinks", parent := none, is_active := true },
                   { pk := 2, name := "Soda", parent := some 1, is_active := true }],
    products := [mkProduct 5 "P" 3 [2] 4], customers := [], orders := [],
    order_items := [], next_pk := 700 }

def c9db : DB :=
  { categories := [], products := [mkProduct 7 "tea" 4 [3] 1, mkProduct 8 "mug" 8 [3] 1],
    customers := [], orders := [], order_items := [], next_pk := 800 }

def c10p : Product := mkProduct 99 "fresh" 10 [] 5

def c10db : DB :=
  { categories := [], products := [mkProduct 85 "existing" 6 [] 7], customers := [],
    orders := [], order_items := [], next_pk := 900 }

deriving instance DecidableEq for Except

/-! ### Theorems -/

/-- Claim C1: the spec guarantees that every successfully placed order is
persisted with `total_amount` equal to the exact decimal sum of
`quantity * price_at_time` over its items.  The code cannot exhibit such an
order: every placement request that carries an item reaches `product.save()`
inside `OrderSerializer.create`, and `Product.save` evaluates
`self.order.calculate_total()` on a `Product`, raising `AttributeError`, so
the request always fails before any `OrderItem` exists.  Evaluated on a valid
one-item request: the call raises and no order item is ever persisted. -/
theorem c1_place_order_raises_before_items :
    (place_order c1db 1 [(10, 1)] "").2 = .error (.attributeError "order") ∧
    (place_order c1db 1 [(10, 1)] "").1.order_items = [] := by
  decide

/-- Claim C3: the spec scenario Product{price=10.00, stock=5}, order of
quantity 3 should commit with status PENDING, total 30.00 and stock 2.  The
code instead persists the decremented stock (2) and a dangling `Order` row
with total 0 and no items, then raises `AttributeError` out of
`Product.save`, so the request fails. -/
theorem c3_success_scenario_raises :
    (place_order c3db 1 [(20, 3)] "").2 = .error (.attributeError "order") ∧
    findProduct (place_order c3db 1 [(20, 3)] "").1 20
      = some (mkProduct 20 "widget" 10 [] 2) ∧
    (place_order c3db 1 [(20, 3)] "").1.order_items = [] ∧
    (place_order c3db 1 [(20, 3)] "").1.orders
      = [{ pk := 100, customer := 1, status := .pending, total_amount := 0,
           notes := "" }] := by
  decide

/-- Claim C4: `price_at_time` is supposed to be an immutable snapshot of the
product's price at order creation.  `OrderItem.save` (models.py 187)
overwrites `price_at_time` with the product's current price on every save:
re-saving an item stored with snapshot 10 after the product's price moved to
12 rewrites the snapshot to 12 and re-derives the order total (24). -/
theorem c4_price_snapshot_overwritten :
    (order_item_save c4db c4item).2 = .ok () ∧
    c4item.price_at_time = 10 ∧
    findOrderItem (order_item_save c4db c4item).1 50
      = some { pk := 50, order := 40, product := 30, quantity := 2,
               price_at_time := 12 } ∧
    findOrder (order_item_save c4db c4item).1 40
      = some { pk := 40, customer := 1, status := .pending, total_amount := 24,
               notes := "" } := by
  refine ⟨rfl, rfl, ?_, ?_⟩ <;>
    norm_num [order_item_save, findProduct, findOrderItem, findOrder, writeOrderItem,
      writeOrder, upsert, calculate_total, get_subtotal, c4db, c4item, mkProduct,
      List.find?, List.filter]

/-- Claim C5: with stock N = 1 and two requests each asking for 1, the spec
requires exactly one success and one `InsufficientStock` via an atomic
check-and-set.  The code's decrement is a stale-read-then-write: in the
interleaving where both requests validate before either commits, both pass
the stock check against their stale snapshots, both persist the decrement
(final stock 0), and both then fail with `AttributeError` from
`Product.save` — neither succeeds and neither observes `InsufficientStock`. -/
theorem c5_stale_read_race :
    (concurrent_place_order c5db 1 2 [(60, 1)] [(60, 1)]).2.1
      = .error (.attributeError "order") ∧
    (concurrent_place_order c5db 1 2 [(60, 1)] [(60, 1)]).2.2
      = .error (.attributeError "order") ∧
    findProduct (concurrent_place_order c5db 1 2 [(60, 1)] [(60, 1)]).1 60
      = some (mkProduct 60 "lamp" 5 [] 0) := by
  decide

/-- Claim C10: saving a newly created `Product` with valid price and stock is
supposed to complete without raising.  `Product.save` writes the row and then
evaluates `self.order.calculate_total()`, an attribute a `Product` does not
have, so every save raises `AttributeError` after the insert; the other rows
are untouched. -/
theorem c10_new_product_save_raises :
    (product_save c10db c10p).2 = .error (.attributeError "order") ∧
    (product_save c10db c10p).1.products = c10db.products ++ [c10p] ∧
    (product_save c10db c10p).1.orders = c10db.orders ∧
    (product_save c10db c10p).1.order_items = c10db.order_items := by
  decide

/-- Claim C7: when the SMS channel raises, `_send_order_notifications`
catches and logs the failure, still attempts the email channel, raises
nothing to the order-placement caller, and performs no database write, so the
committed order (and its status) is untouched. -/
theorem c7_sms_failure_is_isolated (db : DB) (oid : Nat) (e : String)
    (email_outcome : Except String Unit) :
    (send_order_notifications db oid (.error e) email_outcome).1 = db ∧
    (send_order_notifications db oid (.error e) email_outcome).2.email_attempted
      = true ∧
    (send_order_notifications db oid (.error e) email_outcome).2.raised = none ∧
    LogEntry.sms_failed e
      ∈ (send_order_notifications db oid (.error e) email_outcome).2.logs := by
  refine ⟨rfl, rfl, rfl, ?_⟩
  cases email_outcome <;> simp [send_order_notifications]

/-- If every requested item resolves to an active product with a sane
quantity, and some requested item asks for more than its product's stock,
item validation fails with the per-item insufficient-stock error. -/
theorem validate_items_insufficient {db : DB} :
    ∀ {items : List (Nat × Int)},
    (∀ pq ∈ items, ∃ p, active_product db pq.1 = some p ∧ 1 ≤ pq.2) →
    (∃ pq ∈ items, ∃ p, active_product db pq.1 = some p ∧ p.stock < pq.2) →
    ∃ a, validate_items db items = .error (.only_available a) := by
  intro items
  induction items with
  | nil =>
      intro _ hbad
      rcases hbad with ⟨pq, hpq, _⟩
      exact absurd hpq (List.not_mem_nil pq)
  | cons pq rest ih =>
      intro hres hbad
      obtain ⟨pid, qty⟩ := pq
      obtain ⟨p, hp, h1⟩ := hres (pid, qty) (List.mem_cons_self _ _)
      have hq1 : ¬ qty < 1 := not_lt.mpr h1
      by_cases hgt : qty > p.stock
      · refine ⟨p.stock, ?_⟩
        simp [validate_items, validate_item, hp, hq1, hgt, Bind.bind, Except.bind]
      · have hhead : validate_item db pid qty = .ok { product := p, quantity := qty } := by
          simp [validate_item, hp, hq1, hgt]
        have hbad2 : ∃ pq2 ∈ rest, ∃ p2,
            active_product db pq2.1 = some p2 ∧ p2.stock < pq2.2 := by
          rcases hbad with ⟨pq2, hpq2, p2, hp2, hlt⟩
          rcases List.mem_cons.mp hpq2 with heq | hmem
          · subst heq
            rw [hp] at hp2
            have hpe : p = p2 := Option.some.inj hp2
            subst hpe
            omega
          · exact ⟨pq2, hmem, p2, hp2, hlt⟩
        obtain ⟨a, ha⟩ := ih (fun pq2 h2 => hres pq2 (List.mem_cons_of_mem _ h2)) hbad2
        refine ⟨a, ?_⟩
        simp [validate_items, hhead, ha, Bind.bind, Except.bind]

/-- Claim C2: when some requested item exceeds its product's stock (and the
request is otherwise well formed), order placement fails with an
insufficient-stock error and the database is returned exactly as it was: no
`Order`, no `OrderItem`, no stock change. -/
theorem c2_insufficient_stock_all_or_nothing (db : DB) (cid : Nat)
    (items : List (Nat × Int)) (notes : String)
    (hcust : ∃ c, active_customer db cid = some c)
    (hres : ∀ pq ∈ items, ∃ p, active_product db pq.1 = some p ∧ 1 ≤ pq.2)
    (hbad : ∃ pq ∈ items, ∃ p, active_product db pq.1 = some p ∧ p.stock < pq.2) :
    ∃ a, place_order db cid items notes = (db, .error (.only_available a)) := by
  obtain ⟨c, hc⟩ := hcust
  obtain ⟨a, ha⟩ := validate_items_insufficient hres hbad
  exact ⟨a, by simp [place_order, hc, ha]⟩

/-- Witness for C2 on the spec scenario: stock 2, requested quantity 3: the
request fails (the error carries available = 2) and the state is untouched. -/
theorem c2_insufficient_stock_all_or_nothing_witness :
    ∃ a, place_order c2db 1 [(10, 3)] "" = (c2db, .error (.only_available a)) :=
  c2_insufficient_stock_all_or_nothing c2db 1 [(10, 3)] ""
    ⟨c2cust, rfl⟩
    (fun pq hpq => by
      have h := List.mem_singleton.mp hpq
      subst h
      exact ⟨c2prod, rfl, by decide⟩)
    ⟨(10, 3), List.mem_singleton.mpr rfl, c2prod, rfl, by decide⟩

/-- A member of an upserted list is an old member or the written row. -/
theorem mem_upsert {α : Type} (pkOf : α → Nat) (xs : List α) (x y : α)
    (hy : y ∈ upsert pkOf xs x) : y ∈ xs ∨ y = x := by
  unfold upsert at hy
  split at hy
  · rcases List.mem_map.mp hy with ⟨z, hz, hzy⟩
    by_cases hpk : (pkOf z == pkOf x) = true
    · simp only [hpk, if_true] at hzy
      exact Or.inr hzy.symm
    · simp only [hpk, if_false] at hzy
      exact Or.inl (hzy ▸ hz)
  · rcases List.mem_append.mp hy with h1 | h1
    · exact Or.inl h1
    · exact Or.inr (by simpa using h1)

/-- A validated item carries a product row of the database, and its quantity
is bounded by that row's stock (the per-item stock check passed). -/
theorem validate_item_ok {db : DB} {pid : Nat} {qty : Int} {it : ItemData}
    (h : validate_item db pid qty = .ok it) :
    it.product ∈ db.products ∧ it.quantity ≤ it.product.stock := by
  unfold validate_item at h
  cases hfind : active_product db pid with
  | none => rw [hfind] at h; exact Except.noConfusion h
  | some p =>
      rw [hfind] at h
      dsimp only at h
      by_cases h1 : qty < 1
      · rw [if_pos h1] at h
        exact Except.noConfusion h
      · rw [if_neg h1] at h
        by_cases h2 : qty > p.stock
        · rw [if_pos h2] at h
          exact Except.noConfusion h
        · rw [if_neg h2] at h
          injection h with h3
          subst h3
          refine ⟨?_, le_of_not_lt h2⟩
          unfold active_product at hfind
          have hmem := List.mem_of_find?_eq_some hfind
          exact (List.mem_filter.mp hmem).1

/-- `validate_item_ok`, lifted to the whole validated list. -/
theorem validate_items_ok {db : DB} :
    ∀ {reqs : List (Nat × Int)} {l : List ItemData},
    validate_items db reqs = .ok l →
    ∀ it ∈ l, it.product ∈ db.products ∧ it.quantity ≤ it.product.stock := by
  intro reqs
  induction reqs with
  | nil =>
      intro l h it hit
      unfold validate_items at h
      injection h with h2
      subst h2
      exact absurd hit (List.not_mem_nil it)
  | cons pq rest ih =>
      intro l h it hit
      obtain ⟨pid, qty⟩ := pq
      unfold validate_items at h
      cases hv : validate_item db pid qty with
      | error e => rw [hv] at h; simp [Bind.bind, Except.bind] at h
      | ok it0 =>
          rw [hv] at h
          cases hr : validate_items db rest with
          | error e => rw [hr] at h; simp [Bind.bind, Except.bind] at h
          | ok tail =>
              rw [hr] at h
              simp only [Bind.bind, Except.bind, pure, Except.pure] at h
              injection h with h2
              subst h2
              rcases List.mem_cons.mp hit with heq | hmem
              · subst heq; exact validate_item_ok hv
              · exact ih hr it hmem

/-- `Order.calculate_total` only writes the orders table. -/
theorem calculate_total_products (db : DB) (oid : Nat) :
    (calculate_total db oid).products = db.products := by
  unfold calculate_total
  cases findOrder db oid with
  | none => rfl
  | some o =>
      dsimp only
      split
      · rfl
      · rfl

/-- Every product row after the commit loop is either an original row or the
written row of the loop's first item, with the stock decremented by the
requested quantity. -/
theorem commit_items_products {db db2 : DB} {oid : Nat} {items : List ItemData}
    {r : Except Err Unit} (hc : commit_items db oid items = (db2, r)) :
    ∀ p ∈ db2.products,
      p ∈ db.products ∨
      ∃ it ∈ items, p = { it.product with stock := it.product.stock - it.quantity } := by
  obtain rfl : db2 = (commit_items db oid items).1 := by rw [hc]
  cases items with
  | nil => intro p hp; exact Or.inl hp
  | cons it rest =>
      intro p hp
      simp only [commit_items, product_save] at hp
      rcases mem_upsert Product.pk db.products _ p hp with h | h
      · exact Or.inl h
      · exact Or.inr ⟨it, List.mem_cons_self _ _, h⟩

/-- Every product row after `OrderSerializer.create` is an original row or a
row written by the commit loop for one of the validated items. -/
theorem order_create_products {db db2 : DB} {cust : Nat} {notes : String}
    {items : List ItemData} {r : Except Err Nat}
    (hc : order_create db cust notes items = (db2, r)) :
    ∀ p ∈ db2.products,
      p ∈ db.products ∨
      ∃ it ∈ items, p = { it.product with stock := it.product.stock - it.quantity } := by
  intro p hp
  unfold order_create at hc
  cases hcs : check_stock items with
  | error e =>
      rw [hcs] at hc
      obtain rfl : db2 = db := congrArg Prod.fst hc.symm
      exact Or.inl hp
  | ok u =>
      rw [hcs] at hc
      dsimp only at hc
      rcases hcommit : commit_items
          (writeOrder { db with next_pk := db.next_pk + 1 }
            { pk := db.next_pk, customer := cust, status := .pending,
              total_amount := 0, notes := notes }) db.next_pk items with ⟨dbc, rc⟩
      rw [hcommit] at hc
      have hmem : p ∈ dbc.products → p ∈ db.products ∨
          ∃ it ∈ items, p = { it.product with stock := it.product.stock - it.quantity } := by
        intro hpc
        have := commit_items_products hcommit p hpc
        simpa [writeOrder] using this
      cases rc with
      | error e =>
          obtain rfl : db2 = dbc := congrArg Prod.fst hc.symm
          exact hmem hp
      | ok u2 =>
          obtain rfl : db2 = calculate_total dbc db.next_pk := congrArg Prod.fst hc.symm
          rw [calculate_total_products] at hp
          exact hmem hp

/-- One order-placement attempt preserves non-negative stock and positive
price for every product row. -/
theorem place_order_inv {db : DB} {cid : Nat} {items : List (Nat × Int)}
    {notes : String}
    (hinv : ∀ p ∈ db.products, 0 ≤ p.stock ∧ 0 < p.price) :
    ∀ p ∈ (place_order db cid items notes).1.products, 0 ≤ p.stock ∧ 0 < p.price := by
  intro p hp
  unfold place_order at hp
  cases hc : active_customer db cid with
  | none => rw [hc] at hp; exact hinv p hp
  | some c =>
      rw [hc] at hp
      cases hv : validate_items db items with
      | error e => rw [hv] at hp; exact hinv p hp
      | ok items_data =>
          rw [hv] at hp
          by_cases hemp : items_data.isEmpty
          · simp only [hemp, if_true] at hp
            exact hinv p hp
          · simp only [hemp, if_false] at hp
            rcases hoc : order_create db c.pk notes items_data with ⟨db2, r⟩
            rw [hoc] at hp
            rcases order_create_products hoc p hp with h | ⟨it, hit, rfl⟩
            · exact hinv p h
            · have hfacts := validate_items_ok hv it hit
              constructor
              · have h2 := hfacts.2
                dsimp only
                omega
              · exact (hinv it.product hfacts.1).2

/-- A whole sequence of attempts preserves the invariant. -/
theorem run_attempts_inv :
    ∀ (reqs : List (Nat × List (Nat × Int) × String)) (db : DB),
    (∀ p ∈ db.products, 0 ≤ p.stock ∧ 0 < p.price) →
    ∀ p ∈ (run_attempts db reqs).products, 0 ≤ p.stock ∧ 0 < p.price := by
  intro reqs
  induction reqs with
  | nil => intro db h; simpa [run_attempts] using h
  | cons r rest ih =>
      intro db h
      obtain ⟨c, its, n⟩ := r
      exact ih _ (place_order_inv h)

/-- Claim C6: starting from a state where every product has `stock ≥ 0` and
`price > 0`, every prefix of any sequence of order-placement attempts
(successful or failed) leaves every product with `stock ≥ 0` and `price > 0`:
the invariant holds before and after each attempt. -/
theorem c6_stock_nonneg_price_pos (db : DB)
    (reqs : List (Nat × List (Nat × Int) × String))
    (hinv : ∀ p ∈ db.products, 0 ≤ p.stock ∧ 0 < p.price) :
    ∀ i : Nat, ∀ p ∈ (run_attempts db (reqs.take i)).products,
      0 ≤ p.stock ∧ 0 < p.price :=
  fun i => run_attempts_inv (reqs.take i) db hinv

/-- Witness for C6: one product with stock 3, two attempts each requesting 2;
the first decrements stock to 1 (and then fails in `Product.save`), the
second fails validation; the invariant holds throughout. -/
theorem c6_stock_nonneg_price_pos_witness :
    (∀ p ∈ c6db.products, 0 ≤ p.stock ∧ 0 < p.price) ∧
    ∀ p ∈ (run_attempts c6db (c6reqs.take 2)).products, 0 ≤ p.stock ∧ 0 < p.price :=
  ⟨by decide, c6_stock_nonneg_price_pos c6db c6reqs (by decide) 2⟩

/-- Counterexample for claim C8: `get_products_count` counts join rows, not
distinct products.  With "Drinks" parent of "Soda" and a product P belonging
to both, the code returns 2 while the spec's set-intersection count is 1. -/
theorem c8_join_count_differs :
    get_products_count c8db 1 = 2 ∧ spec_products_count c8db 1 = 1 ∧
    get_products_count c8db 1 ≠ spec_products_count c8db 1 := by
  decide

/-- Claim C8, amended: `countProductsInCategory(id)` counts product–category
associations, one per category a product has inside {id} ∪ descendants(id);
when every matching product has at most one category in that set — as in the
Drinks/Soda scenario, where P belongs only to "Soda" — this equals the count
of products whose category set intersects the set, so the scenario's product
is included. -/
theorem c8_count_is_association_count (db : DB) (root : Nat)
    (hone : ∀ p ∈ db.products,
      (p.categories.filter (fun cid => (descendant_ids db root).contains cid)).length ≤ 1) :
    get_products_count db root = spec_products_count db root := by
  unfold get_products_count spec_products_count
  suffices h : ∀ (ds : List Nat) (ps : List Product),
      (∀ p ∈ ps, (p.categories.filter (fun cid => ds.contains cid)).length ≤ 1) →
      (ps.map (fun p => (p.categories.filter (fun cid => ds.contains cid)).length)).sum
        = (ps.filter (fun p => p.categories.any (fun cid => ds.contains cid))).length by
    exact h (descendant_ids db root) db.products hone
  intro ds ps
  induction ps with
  | nil => intro _; rfl
  | cons p rest ih =>
      intro h
      have hp := h p (List.mem_cons_self _ _)
      have hrest := ih (fun q hq => h q (List.mem_cons_of_mem _ hq))
      simp only [List.map_cons, List.sum_cons, List.filter_cons]
      by_cases hany : p.categories.any (fun cid => ds.contains cid) = true
      · have hpos : 0 < (p.categories.filter (fun cid => ds.contains cid)).length := by
          rcases List.any_eq_true.mp hany with ⟨x, hx, hxd⟩
          exact List.length_pos.mpr
            (List.ne_nil_of_mem (List.mem_filter.mpr ⟨hx, hxd⟩))
        have h1 : (p.categories.filter (fun cid => ds.contains cid)).length = 1 :=
          le_antisymm hp hpos
        simp only [hany, if_true, List.length_cons, h1, hrest]
        omega
      · have h0 : (p.categories.filter (fun cid => ds.contains cid)).length = 0 := by
          rw [List.length_eq_zero, List.filter_eq_nil_iff]
          intro a ha hc
          exact hany (List.any_eq_true.mpr ⟨a, ha, hc⟩)
        rw [if_neg hany, h0, hrest, Nat.zero_add]

/-- Witness for the amended C8 on the spec scenario: "Drinks" has child
"Soda", product P belongs only to "Soda"; the hypothesis holds, the code's
count agrees with the distinct-product count, and P is counted. -/
theorem c8_count_is_association_count_witness :
    (∀ p ∈ c8scn.products,
      (p.categories.filter
        (fun cid => (descendant_ids c8scn 1).contains cid)).length ≤ 1) ∧
    get_products_count c8scn 1 = spec_products_count c8scn 1 ∧
    spec_products_count c8scn 1 = 1 :=
  ⟨by decide, c8_count_is_association_count c8scn 1 (by decide), by decide⟩

/-- Claim C9: `category_average` returns NULL exactly when no active product
is associated with the category, and any returned average `a` satisfies
`a * n = Σ prices` over the n matching active products — it is the exact mean,
and an empty match yields null rather than zero. -/
theorem c9_category_average_null_or_mean (db : DB) (cid : Nat) :
    (category_average db cid = none ↔
      ¬ ∃ p ∈ db.products, p.is_active = true ∧ cid ∈ p.categories) ∧
    (∀ a : Money, category_average db cid = some a →
      a * ((db.products.filter
              (fun p => p.is_active && p.categories.contains cid)).length : Rat)
        = ((db.products.filter
              (fun p => p.is_active && p.categories.contains cid)).map
            (fun p => p.price)).sum) := by
  constructor
  · unfold category_average
    cases hq : db.products.filter (fun p => p.is_active && p.categories.contains cid) with
    | nil =>
        simp only [true_iff]
        rintro ⟨p, hp, hact, hmem⟩
        have hnone := List.filter_eq_nil_iff.mp hq p hp
        apply hnone
        simp only [hact, Bool.true_and]
        exact List.elem_iff.mpr hmem
    | cons x t =>
        constructor
        · intro hcon
          exact Option.noConfusion hcon
        · intro hno
          exfalso
          have hx : x ∈ db.products.filter (fun p => p.is_active && p.categories.contains cid) := by
            rw [hq]; exact List.mem_cons_self _ _
          have hx2 := List.mem_filter.mp hx
          have hpred := hx2.2
          rw [Bool.and_eq_true] at hpred
          exact hno ⟨x, hx2.1, hpred.1, List.elem_iff.mp hpred.2⟩
  · intro a ha
    unfold category_average at ha
    cases hq : db.products.filter (fun p => p.is_active && p.categories.contains cid) with
    | nil => rw [hq] at ha; exact Option.noConfusion ha
    | cons x t =>
        rw [hq] at ha
        have ha2 : ((x :: t).map (fun p => p.price)).sum / (((x :: t).length : Nat) : Rat) = a :=
          Option.some.inj ha
        have hlen : (((x :: t).length : Nat) : Rat) ≠ 0 := by
          have h2 : 0 < (x :: t).length := List.length_pos.mpr (List.cons_ne_nil x t)
          exact_mod_cast Nat.pos_iff_ne_zero.mp h2
        rw [← ha2, div_mul_cancel₀ _ hlen]

/-- Witness for C9: a category with no matching active product yields null;
for two matching products priced 4 and 8, the returned mean 6 satisfies
`6 * 2 = 4 + 8`. -/
theorem c9_category_average_null_or_mean_witness :
    category_average c9db 99 = none ∧
    (6 : Money) * ((c9db.products.filter
        (fun p => p.is_active && p.categories.contains 3)).length : Rat)
      = ((c9db.products.filter
          (fun p => p.is_active && p.categories.contains 3)).map
          (fun p => p.price)).sum :=
  ⟨(c9_category_average_null_or_mean c9db 99).1.mpr (by decide),
   (c9_category_average_null_or_mean c9db 3).2 6 (by
      norm_num [category_average, c9db, mkProduct, List.filter])⟩

end Duka
